import Mathlib

/-!
Verification of the query-intent resolution and SQL-safety-validation pipeline
of the smrt-systems take-home repository: a natural-language front-end over
four relational CSV tables (Customer, Inventory, Detail, Pricelist) that turns
a user question into a parameterized read-only SQL query, validates it, runs
it, and returns an answer with evidence.

The frontend (React Native) is embedded from its TypeScript source.  The
backend core (intent matcher, SQL validator, template engine, evidence
assembler) is not part of the available sources; those components are
modelled from the specification, as marked on each definition.
-/

/-- SQL/text token: an identifier normalized to upper case, or a numeric
literal.  The backend validator works on strings with regex/keyword
heuristics; the model works on this tokenized view of the same strings. -/
inductive Tok where
  | ident : String → Tok
  | num : Nat → Tok
deriving DecidableEq, Repr

/-- Digit-run value of a list of characters (most significant first). -/
def digitsVal (cs : List Char) : Nat :=
  cs.foldl (fun a c => 10 * a + (c.toNat - 48)) 0

/-- Turn one maximal alphanumeric run into a token: an all-digit run becomes
a numeric token, anything else an (upper-cased) identifier. -/
def runToTok (cs : List Char) : Tok :=
  if cs ≠ [] ∧ cs.all Char.isDigit then .num (digitsVal cs) else .ident (String.mk cs)

/-- Character class that may appear inside an identifier token. -/
def isIdentChar (c : Char) : Bool := c.isAlphanum || c = '_'

/-- Tokenizer worker: first argument is the remaining input, second the
current run of identifier characters (reversed, already upper-cased). -/
def tokenizeAux : List Char → List Char → List Tok
  | [], acc => if acc.isEmpty then [] else [runToTok acc.reverse]
  | c :: rest, acc =>
    if isIdentChar c then tokenizeAux rest (c.toUpper :: acc)
    else if acc.isEmpty then tokenizeAux rest []
    else runToTok acc.reverse :: tokenizeAux rest []

/-- Tokens of a string: case-insensitive, whitespace and punctuation
collapsed.  This is the normalization step shared by the intent matcher
(lowercase, trim, collapse whitespace) and the validator keyword scan. -/
def toks (s : String) : List Tok := tokenizeAux s.toList []

/-- Single-quote character (string-literal delimiter in SQL). -/
def sqChar : Char := Char.ofNat 39

/-- Newline character. -/
def nlChar : Char := Char.ofNat 10

/-- Scanner state for stripping string and comment literals from SQL text. -/
inductive ScanState where
  | plain
  | quoted
  | comment
deriving DecidableEq

/-- Modelled from the spec: removal of string and line-comment literals from
SQL text, so that the statement-separator scan (check 2) only sees
top-level characters, "outside of string/comment literals". -/
def stripLiterals : List Char → ScanState → List Char
  | [], _ => []
  | '-' :: '-' :: rest, .plain => stripLiterals rest .comment
  | c :: rest, .plain =>
    if c = sqChar then stripLiterals rest .quoted else c :: stripLiterals rest .plain
  | c :: rest, .quoted => if c = sqChar then stripLiterals rest .plain else stripLiterals rest .quoted
  | c :: rest, .comment => if c = nlChar then stripLiterals rest .plain else stripLiterals rest .comment

/-- Does the character list contain a statement separator with further
non-whitespace content after it (a stacked statement)? -/
def hasStacked : List Char → Bool
  | [] => false
  | c :: rest => (c = ';' && rest.any (fun d => !d.isWhitespace)) || hasStacked rest

/-- Modelled from the spec: keywords whose presence marks a non-read-only
statement; the select-only guard rejects them ("deny DDL/DML keywords"). -/
def deniedKeywords : List String :=
  ["INSERT", "UPDATE", "DELETE", "DROP", "ALTER", "CREATE", "TRUNCATE",
   "ATTACH", "COPY", "PRAGMA", "EXEC"]

/-- Is this token a denied DDL/DML keyword? -/
def isDenied : Tok → Bool
  | .ident s => deniedKeywords.contains s
  | .num _ => false

/-- Modelled from the spec: check 1 (statement shape).  The statement must
lead with SELECT (or WITH), and no denied DDL/DML keyword may appear
anywhere in it. -/
def checkStatementShape (ts : List Tok) : Bool :=
  match ts with
  | .ident k :: _ => (k = "SELECT" || k = "WITH") && ts.all (fun t => !isDenied t)
  | _ => false

/-- Modelled from the spec: check 2 (statement count).  Reject a second
top-level statement separator outside of string/comment literals. -/
def checkStatementCount (sql : String) : Bool :=
  !hasStacked (stripLiterals sql.toList .plain)

/-- The four canonical tables of the Schema Registry. -/
def tableWhitelist : List String := ["CUSTOMER", "INVENTORY", "DETAIL", "PRICELIST"]

/-- Name of an identifier token (numeric tokens have no name). -/
def tokName : Tok → String
  | .ident s => s
  | .num _ => ""

/-- Table references: every token that immediately follows FROM or JOIN. -/
def tableRefs : List Tok → List String
  | a :: b :: rest =>
    if tokName a = "FROM" || tokName a = "JOIN" then tokName b :: tableRefs (b :: rest)
    else tableRefs (b :: rest)
  | _ => []

/-- Modelled from the spec: check 3 (table whitelist).  Every table
reference must resolve to a Schema Registry entry. -/
def checkTableWhitelist (ts : List Tok) : Bool :=
  (tableRefs ts).all tableWhitelist.contains

/-- SQL keywords and functions recognized by the column scan. -/
def sqlKeywords : List String :=
  ["SELECT", "WITH", "FROM", "WHERE", "GROUP", "BY", "ORDER", "LIMIT", "JOIN",
   "ON", "AS", "AND", "OR", "NOT", "IN", "BETWEEN", "SUM", "COUNT", "AVG",
   "MIN", "MAX", "DESC", "ASC", "CAST", "DATE", "INTERVAL", "DISTINCT",
   "HAVING", "LEFT", "RIGHT", "INNER", "OUTER", "NULL", "IS", "LIKE", "CASE",
   "WHEN", "THEN", "ELSE", "END", "DAY", "DAYS", "CURRENT_DATE", "DATE_TRUNC",
   "COALESCE", "ROUND", "OFFSET"]

/-- Canonical columns of the Schema Registry together with recognized
aliases and template output names. -/
def columnWhitelist : List String :=
  ["CID", "NAME", "EMAIL", "PHONE", "CREATED_AT", "SEGMENT",
   "IID", "ORDER_DATE", "STATUS", "ORDER_TOTAL",
   "DID", "DETAIL_ID", "PRODUCT_ID", "QTY", "QUANTITY", "UNIT_PRICE",
   "PRICE_TABLE_ITEM_ID", "ITEM_NAME", "PRICE",
   "CUSTOMER_ID", "INVENTORY_ID", "TOTAL", "REVENUE", "TOTAL_QTY",
   "TOTAL_REVENUE", "LINE_TOTAL", "ORDER_COUNT"]

/-- Table aliases declared in the statement: an identifier that directly
follows a whitelisted table name (as in FROM Inventory I). -/
def declaredAliases : List Tok → List String
  | a :: b :: rest =>
    if tableWhitelist.contains (tokName a) && !sqlKeywords.contains (tokName b)
       && tokName b ≠ "" then
      tokName b :: declaredAliases (b :: rest)
    else declaredAliases (b :: rest)
  | _ => []

/-- Modelled from the spec: check 4 (column whitelist), best-effort and
fail-closed.  Every identifier token must be a recognized keyword, table,
column, alias, or declared table alias; anything unrecognized rejects. -/
def checkColumnWhitelist (ts : List Tok) : Bool :=
  ts.all fun t =>
    match t with
    | .num _ => true
    | .ident s =>
      sqlKeywords.contains s || tableWhitelist.contains s ||
      columnWhitelist.contains s || (declaredAliases ts).contains s

/-- Modelled from the spec: the configured default row limit injected when a
statement has no LIMIT clause. -/
def defaultLimit : Nat := 100

/-- Modelled from the spec: the configured maximum row limit; larger LIMIT
values are clamped to it. -/
def maxLimit : Nat := 1000

/-- Value of the first LIMIT clause in a token list, if any. -/
def limitOf : List Tok → Option Nat
  | .ident a :: .num k :: rest => if a = "LIMIT" then some k else limitOf (.num k :: rest)
  | _ :: rest => limitOf rest
  | [] => none

/-- Clamp every LIMIT value to the configured maximum. -/
def clampTokens : List Tok → List Tok
  | .ident a :: .num k :: rest =>
    if a = "LIMIT" then .ident a :: .num (min k maxLimit) :: clampTokens rest
    else .ident a :: clampTokens (.num k :: rest)
  | t :: rest => t :: clampTokens rest
  | [] => []

/-- Modelled from the spec: check 5 (bounded rows) as a rewrite.  A missing
LIMIT is injected at the configured default; an oversized LIMIT is clamped
to the configured maximum, never rejected. -/
def boundedTokens (ts : List Tok) : List Tok :=
  if (limitOf ts).isSome then clampTokens ts
  else ts ++ [.ident "LIMIT", .num defaultLimit]

/-- One named check of a validation report. -/
structure CheckResult where
  name : String
  passed : Bool
deriving DecidableEq, Repr

/-- Validation report: the ordered list of checks, and the rewritten
(bounded) SQL in tokenized form. -/
structure ValidationReport where
  checks : List CheckResult
  rewritten : List Tok
deriving DecidableEq, Repr

/-- Modelled from the spec: the SQL Validator / Guard (section 4.3), a pure
function from candidate SQL (template- or LLM-generated) to a report.
Checks 1-4 are the blocking static checks; check 5 (bounded rows) always
passes and contributes the rewritten SQL; check 6 (timeout) is evaluated
at execution time and is appended to the report afterwards. -/
def validate (sql : String) : ValidationReport :=
  let ts := toks sql
  { checks :=
      [⟨"statement_shape", checkStatementShape ts⟩,
       ⟨"statement_count", checkStatementCount sql⟩,
       ⟨"table_whitelist", checkTableWhitelist ts⟩,
       ⟨"column_whitelist", checkColumnWhitelist ts⟩,
       ⟨"bounded_rows", true⟩],
    rewritten := boundedTokens ts }

/-- Overall validity of a report: the conjunction of its first four checks
(statement shape, statement count, table whitelist, column whitelist). -/
def overallValid (r : ValidationReport) : Bool :=
  (r.checks.take 4).all (·.passed)

/-- One result row, as an association list from column name to cell text. -/
def Row : Type := List (String × String)

instance : DecidableEq Row := inferInstanceAs (DecidableEq (List (String × String)))

/-- Outcome of handing SQL to the external execution engine. -/
inductive ExecOutcome where
  | success : List Row → ExecOutcome
  | failure : String → ExecOutcome
  | timedOut : ExecOutcome

/-- Render a token list back to SQL text (space-separated). -/
def tokStr : Tok → String
  | .ident s => s
  | .num k => toString k

/-- Render a token list back to SQL text. -/
def renderSql (ts : List Tok) : String :=
  String.intercalate " " (ts.map tokStr)

/-- Modelled from the spec: the execution gate.  The candidate SQL is
validated first; only when the report is overall-valid is the (rewritten)
SQL handed to the execution engine, otherwise nothing is executed. -/
def guardedExec (exec : String → ExecOutcome) (sql : String) : Option ExecOutcome :=
  let r := validate sql
  if overallValid r then some (exec (renderSql r.rewritten)) else none

/-- Calendar date (proleptic Gregorian, CE). -/
structure Date where
  year : Nat
  month : Nat
  day : Nat
deriving DecidableEq, Repr

/-- Day number of a date (days since 0000-03-01, civil-calendar algorithm). -/
def rataDie (dt : Date) : Nat :=
  let y := if dt.month ≤ 2 then dt.year - 1 else dt.year
  let yoe := y % 400
  let mp := (dt.month + 9) % 12
  let doy := (153 * mp + 2) / 5 + dt.day - 1
  (y / 400) * 146097 + yoe * 365 + yoe / 4 - yoe / 100 + doy

/-- Date of a day number (inverse of the day-number conversion). -/
def dateOfRata (z : Nat) : Date :=
  let doe := z % 146097
  let yoe := (doe - doe / 1460 + doe / 36524 - doe / 146096) / 365
  let y := yoe + (z / 146097) * 400
  let doy := doe - (365 * yoe + yoe / 4 - yoe / 100)
  let mp := (5 * doy + 2) / 153
  let d := doy - (153 * mp + 2) / 5 + 1
  let m := if mp < 10 then mp + 3 else mp - 9
  if m ≤ 2 then ⟨y + 1, m, d⟩ else ⟨y, m, d⟩

/-- Inclusive date range. -/
structure DateRange where
  first : Date
  last : Date
deriving DecidableEq, Repr

/-- Last day of a calendar month. -/
def monthEnd (y m : Nat) : Date :=
  dateOfRata ((if m = 12 then rataDie ⟨y + 1, 1, 1⟩ else rataDie ⟨y, m + 1, 1⟩) - 1)

/-- Relative or absolute time-period phrase recognized by the matcher. -/
inductive Period where
  | lastDays : Nat → Period
  | thisMonth : Period
  | lastMonth : Period
  | quarter : Nat → Nat → Period
  | monthOf : Nat → Nat → Period
deriving DecidableEq, Repr

/-- Modelled from the spec: date-range grounding.  A period phrase resolves
to a concrete range relative to the supplied anchor date (the maximum
order date of the loaded dataset), never to wall-clock time: the model
takes no clock input at all. -/
def resolvePeriod (p : Period) (anchor : Date) : DateRange :=
  match p with
  | .lastDays n => ⟨dateOfRata (rataDie anchor - (n - 1)), anchor⟩
  | .thisMonth => ⟨⟨anchor.year, anchor.month, 1⟩, anchor⟩
  | .lastMonth =>
    let lastPrev := dateOfRata (rataDie ⟨anchor.year, anchor.month, 1⟩ - 1)
    ⟨⟨lastPrev.year, lastPrev.month, 1⟩, lastPrev⟩
  | .quarter q y => ⟨⟨y, 3 * (q - 1) + 1, 1⟩, monthEnd y (3 * (q - 1) + 3)⟩
  | .monthOf m y => ⟨⟨y, m, 1⟩, monthEnd y m⟩

/-- Maximum order date present in a dataset (as a list of order dates). -/
def datasetAnchor (orderDates : List Date) : Date :=
  dateOfRata (orderDates.foldl (fun a d => max a (rataDie d)) 0)

/-- Month-name lookup for period phrases such as August 2024. -/
def monthNum (s : String) : Option Nat :=
  match s with
  | "JANUARY" => some 1
  | "FEBRUARY" => some 2
  | "MARCH" => some 3
  | "APRIL" => some 4
  | "MAY" => some 5
  | "JUNE" => some 6
  | "JULY" => some 7
  | "AUGUST" => some 8
  | "SEPTEMBER" => some 9
  | "OCTOBER" => some 10
  | "NOVEMBER" => some 11
  | "DECEMBER" => some 12
  | _ => none

/-- Modelled from the spec: extraction of a time-period phrase from the
normalized input tokens (last N days, this month, last month, Q1-Q4 of a
year, or a month name with a year).  Returns none when no phrase is
present: there is no default period. -/
def extractPeriod : List Tok → Option Period
  | .ident "LAST" :: .num n :: .ident "DAYS" :: _ => some (.lastDays n)
  | .ident "LAST" :: .num n :: .ident "DAY" :: _ => some (.lastDays n)
  | .ident "LAST" :: .ident "MONTH" :: _ => some .lastMonth
  | .ident "THIS" :: .ident "MONTH" :: _ => some .thisMonth
  | .ident "Q1" :: .num y :: _ => some (.quarter 1 y)
  | .ident "Q2" :: .num y :: _ => some (.quarter 2 y)
  | .ident "Q3" :: .num y :: _ => some (.quarter 3 y)
  | .ident "Q4" :: .num y :: _ => some (.quarter 4 y)
  | .ident m :: .num y :: rest =>
    match monthNum m with
    | some mn => some (.monthOf mn y)
    | none => extractPeriod (.num y :: rest)
  | _ :: rest => extractPeriod rest
  | [] => none

/-- First numeric token of the input, used to extract CID/IID parameters. -/
def firstNum : List Tok → Option Nat
  | .num k :: _ => some k
  | _ :: rest => firstNum rest
  | [] => none

/-- Count of top products requested (TOP followed by a number), defaulting
to 10 for this optional parameter. -/
def extractTopK : List Tok → Nat
  | .ident "TOP" :: .num k :: _ => k
  | _ :: rest => extractTopK rest
  | [] => 10

/-- Does the token list contain this identifier? -/
def hasIdent (ws : List Tok) (s : String) : Bool :=
  ws.contains (.ident s)

/-- Parameters extracted for a matched intent. -/
inductive Params where
  | revenue : DateRange → Params
  | topProducts : Nat → Params
  | ordersFor : Nat → Params
  | detailsFor : Nat → Params
deriving DecidableEq, Repr

/-- Modelled from the spec: an Intent Definition.  Keyword satisfaction and
parameter extraction are separate stages; extraction may fail even when
the keywords are present. -/
structure Intent where
  name : String
  keywordsOk : List Tok → Bool
  extract : Date → List Tok → Option Params
  suggestion : String

/-- Modelled from the spec: the revenue-by-period intent.  Requires a
revenue keyword and a time-period parameter; the period is grounded at
the dataset anchor date. -/
def revenueIntent : Intent where
  name := "revenue_by_period"
  keywordsOk := fun ws =>
    hasIdent ws "REVENUE" || hasIdent ws "SALES" || hasIdent ws "INCOME" || hasIdent ws "EARNINGS"
  extract := fun anchor ws => (extractPeriod ws).map fun p => .revenue (resolvePeriod p anchor)
  suggestion := "Add a time period, for example: revenue last 30 days"

/-- Modelled from the spec: the top-products intent; the count is an
optional parameter with default 10, so extraction always succeeds. -/
def topProductsIntent : Intent where
  name := "top_products"
  keywordsOk := fun ws => hasIdent ws "TOP" || hasIdent ws "BEST"
  extract := fun _ ws => some (.topProducts (extractTopK ws))
  suggestion := "Ask for example: top 5 products"

/-- Modelled from the spec: the orders-by-customer intent.  Requires the
orders keyword and an integer customer identifier. -/
def ordersIntent : Intent where
  name := "orders_by_customer"
  keywordsOk := fun ws => hasIdent ws "ORDERS"
  extract := fun _ ws => (firstNum ws).map .ordersFor
  suggestion := "Give a customer id, for example: orders for CID 1001"

/-- Modelled from the spec: the order-details intent.  Requires the details
keyword and an integer order identifier. -/
def detailsIntent : Intent where
  name := "order_details"
  keywordsOk := fun ws => hasIdent ws "DETAILS"
  extract := fun _ ws => (firstNum ws).map .detailsFor
  suggestion := "Give an order id, for example: order details IID 2001"

/-- Modelled from the spec: the intents in their fixed declared priority
order (first-match-wins). -/
def intents : List Intent :=
  [revenueIntent, topProductsIntent, ordersIntent, detailsIntent]

/-- Outcome of intent matching: a matched intent name with parameters, or a
no-match with a reason and a refinement suggestion. -/
inductive MatchResult where
  | matched : String → Params → MatchResult
  | noMatch : String → String → MatchResult
deriving DecidableEq, Repr

/-- Suggestion attached to the generic no-match outcome. -/
def genericSuggestion : String :=
  "Supported examples: revenue last 30 days, top 5 products, orders for CID 1001"

/-- Modelled from the spec: matcher core.  Intents are evaluated in declared
order; for the first intent whose required keywords are all present,
parameter extraction decides between a match and a no-match scoped to
that intent (no silent fall-through to later intents). -/
def matchFirst : List Intent → Date → List Tok → MatchResult
  | [], _, _ => .noMatch "unsupported question" genericSuggestion
  | i :: rest, anchor, ws =>
    if i.keywordsOk ws then
      match i.extract anchor ws with
      | some ps => .matched i.name ps
      | none => .noMatch ("missing required parameter for " ++ i.name) i.suggestion
    else matchFirst rest anchor ws

/-- First intent of a list whose required keywords are all present. -/
def firstKw : List Intent → List Tok → Option Intent
  | [], _ => none
  | i :: rest, ws => if i.keywordsOk ws then some i else firstKw rest ws

/-- Modelled from the spec: the Intent Matcher entry point, over normalized
text and the dataset-derived anchor date. -/
def matchIntent (anchor : Date) (text : String) : MatchResult :=
  matchFirst intents anchor (toks text)

/-- Single-quote as a string, for building SQL date literals. -/
def sqStr : String := String.mk [sqChar]

/-- SQL date literal for a date. -/
def dateLit (d : Date) : String :=
  sqStr ++ toString d.year ++ "-" ++ toString d.month ++ "-" ++ toString d.day ++ sqStr

/-- Modelled from the spec: the SQL Template Engine.  Each intent owns a
vetted parameterized template; parameters are bound by name at render
time, and every template carries its own LIMIT. -/
def renderPlan : Params → String
  | .revenue r =>
    "SELECT CAST(order_date AS DATE) AS day, SUM(order_total) AS revenue FROM Inventory WHERE order_date BETWEEN "
      ++ dateLit r.first ++ " AND " ++ dateLit r.last
      ++ " GROUP BY day ORDER BY day LIMIT 100"
  | .topProducts k =>
    "SELECT D.product_id, SUM(D.qty) AS total_qty, SUM(D.qty * D.unit_price) AS total_revenue FROM Detail D GROUP BY D.product_id ORDER BY total_revenue DESC LIMIT "
      ++ toString k
  | .ordersFor cid =>
    "SELECT I.IID, I.order_date, I.order_total FROM Inventory I WHERE I.CID = "
      ++ toString cid ++ " ORDER BY I.order_date DESC LIMIT 100"
  | .detailsFor iid =>
    "SELECT D.DID, D.product_id, D.qty, D.unit_price FROM Detail D WHERE D.IID = "
      ++ toString iid ++ " ORDER BY D.DID LIMIT 100"

/-- First numeric token that directly follows the given identifier. -/
def numAfter (key : String) : List Tok → Option Nat
  | .ident a :: .num k :: rest => if a = key then some k else numAfter key (.num k :: rest)
  | _ :: rest => numAfter key rest
  | [] => none

/-- Parse the customer-id literal back out of a rendered orders query. -/
def extractCid (sql : String) : Option Nat :=
  numAfter "CID" (toks sql)

/-- Modelled from the spec: the Evidence Bundle, the sole response artifact
leaving the core.  Confidence is carried in percent (the source uses a
float in the unit interval). -/
structure EvidenceBundle where
  answer_text : Option String
  sql : Option String
  tables_used : List String
  rows_scanned : Nat
  sample_rows : List Row
  validations : List CheckResult
  confidence : Nat
  follow_ups : List String
  error : Option String
  suggestion : Option String
deriving DecidableEq

/-- Number of sample rows attached to a successful answer. -/
def sampleCount : Nat := 3

/-- Modelled from the spec: the Evidence Assembler (section 4.4).  A
successful execution with zero rows is a distinct explicit outcome with
error-style messaging plus a suggestion, reported zero rows scanned, and
a failed non-empty-result validation; it is not a silent empty success,
not a fabricated answer, and not an execution error. -/
def assemble (sql : String) (r : ValidationReport) (out : ExecOutcome) : EvidenceBundle :=
  match out with
  | .success rows =>
    if rows.isEmpty then
      { answer_text := none
        sql := some sql
        tables_used := tableRefs (toks sql)
        rows_scanned := 0
        sample_rows := []
        validations := r.checks ++ [⟨"non_empty_result", false⟩, ⟨"timeout", true⟩]
        confidence := 30
        follow_ups := []
        error := some "No matching rows found."
        suggestion := some "Try widening the date range or changing the filters." }
    else
      { answer_text := some ("We found " ++ toString rows.length ++ " result(s).")
        sql := some sql
        tables_used := tableRefs (toks sql)
        rows_scanned := rows.length
        sample_rows := rows.take sampleCount
        validations := r.checks ++ [⟨"non_empty_result", true⟩, ⟨"timeout", true⟩]
        confidence := 75
        follow_ups := ["Top products last 30 days"]
        error := none
        suggestion := none }
  | .failure msg =>
      { answer_text := none
        sql := some sql
        tables_used := []
        rows_scanned := 0
        sample_rows := []
        validations := r.checks ++ [⟨"timeout", true⟩]
        confidence := 0
        follow_ups := []
        error := some ("Execution error: " ++ msg)
        suggestion := some "Try rephrasing the question." }
  | .timedOut =>
      { answer_text := none
        sql := some sql
        tables_used := []
        rows_scanned := 0
        sample_rows := []
        validations := r.checks ++ [⟨"timeout", false⟩]
        confidence := 0
        follow_ups := []
        error := some "Execution timed out."
        suggestion := some "Try a narrower date range." }

/-- Modelled from the spec: the bundle returned on validation failure.  It
names the failed checks and carries no SQL and no answer text. -/
def validationFailureBundle (r : ValidationReport) : EvidenceBundle :=
  { answer_text := none
    sql := none
    tables_used := []
    rows_scanned := 0
    sample_rows := []
    validations := r.checks
    confidence := 0
    follow_ups := []
    error := some ("Cannot answer: validation failed: "
      ++ String.intercalate ", " ((r.checks.filter (fun c => !c.passed)).map (·.name)))
    suggestion := some "Try rephrasing the question." }

/-- Modelled from the spec: the bundle returned when no intent matches (or
the LLM client fails); the pipeline terminates without execution. -/
def noMatchBundle (reason sugg : String) : EvidenceBundle :=
  { answer_text := none
    sql := none
    tables_used := []
    rows_scanned := 0
    sample_rows := []
    validations := []
    confidence := 0
    follow_ups := []
    error := some ("Cannot answer: " ++ reason)
    suggestion := some sugg }

/-- Modelled from the spec: validation followed by gated execution and
evidence assembly, shared by the template and LLM paths. -/
def runCandidate (exec : String → ExecOutcome) (sql : String) : EvidenceBundle :=
  match guardedExec exec sql with
  | some out => assemble (renderSql (validate sql).rewritten) (validate sql) out
  | none => validationFailureBundle (validate sql)

/-- Query mode of a request: deterministic Classic or LLM-assisted. -/
inductive Mode where
  | classic
  | assisted
deriving DecidableEq

/-- Modelled from the spec: the single entry point (section 6).  The mode
router picks the SQL source: Classic uses matcher plus template engine
(a no-match terminates without execution); Assisted uses the external
LLM client (a client failure becomes a no-match-shaped bundle).  Either
way the candidate SQL passes through the validator gate. -/
def answerQuestion (mode : Mode) (llm : String → Option String)
    (exec : String → ExecOutcome) (orderDates : List Date) (text : String) :
    EvidenceBundle :=
  match mode with
  | .classic =>
    match matchIntent (datasetAnchor orderDates) text with
    | .noMatch reason sugg => noMatchBundle reason sugg
    | .matched _ ps => runCandidate exec (renderPlan ps)
  | .assisted =>
    match llm text with
    | none => noMatchBundle "AI assistant unavailable" "Retry in Classic mode."
    | some sql => runCandidate exec sql

/-- Frontend query-mode values, from frontend/lib/api.ts. -/
inductive QueryMode where
  | classic
  | ai
deriving DecidableEq, Repr

/-- Result of reading a key from AsyncStorage: a stored value (possibly
absent), or a thrown storage error. -/
inductive StorageRead where
  | ok : Option String → StorageRead
  | err : StorageRead
deriving DecidableEq

/-- The frontend getQueryMode (frontend/lib/api.ts): returns ai exactly when
the stored value is the string ai, and classic for any other value, a
missing value, or a storage error (the catch branch). -/
def getQueryMode : StorageRead → QueryMode
  | .ok (some s) => if s = "ai" then .ai else .classic
  | .ok none => .classic
  | .err => .classic

/-- Body of the /chat request built by the frontend callChat. -/
structure ChatRequestBody where
  message : String
  query_mode : QueryMode
deriving DecidableEq

/-- The frontend callChat (frontend/lib/api.ts): the request body carries
the explicit mode argument when given, otherwise the stored preference as
read by getQueryMode. -/
def chatRequestBody (message : String) (mode : Option QueryMode)
    (stored : StorageRead) : ChatRequestBody :=
  { message := message, query_mode := mode.getD (getQueryMode stored) }

/-- The sample-rows portion of the frontend EvidenceSection: when the
response has sample rows, the UI renders sampleRows.slice(0, 3). -/
def shownSampleRows (sampleRows : Option (List Row)) : List Row :=
  match sampleRows with
  | some rows => if rows.length > 0 then rows.take 3 else []
  | none => []

/-- The AnswerCard banner condition (frontend AnswerCard): the informational
banner shows when the response carries an error or a failed
non-empty-result validation. -/
def answerCardBannerShown (b : EvidenceBundle) : Bool :=
  b.error.isSome || b.validations.any (fun v => v.name = "non_empty_result" && !v.passed)

/-- Presence of a denied DDL/DML keyword anywhere in the token list makes
the statement-shape check fail. -/
theorem shape_false_of_denied (ts : List Tok) (t : Tok) (ht : t ∈ ts)
    (hd : isDenied t = true) : checkStatementShape ts = false := by
  cases ts with
  | nil => cases ht
  | cons a rest =>
    cases a with
    | num k => rfl
    | ident k =>
      cases hall : (Tok.ident k :: rest).all (fun t => !isDenied t) with
      | false => simp [checkStatementShape, hall]
      | true =>
        exfalso
        rw [List.all_eq_true] at hall
        have := hall t ht
        simp [hd] at this

/-- Clamping never changes the head token of a token list. -/
theorem clampTokens_cons (t : Tok) (rest : List Tok) :
    ∃ tl, clampTokens (t :: rest) = t :: tl := by
  rcases t with s | k
  · rcases rest with _ | ⟨b, rest1⟩
    · exact ⟨[], by simp [clampTokens]⟩
    · rcases b with s2 | k2
      · exact ⟨clampTokens (.ident s2 :: rest1), by simp [clampTokens]⟩
      · by_cases hs : s = "LIMIT"
        · subst hs
          exact ⟨.num (min k2 maxLimit) :: clampTokens rest1, by simp [clampTokens]⟩
        · exact ⟨clampTokens (.num k2 :: rest1), by simp [clampTokens, hs]⟩
  · exact ⟨clampTokens rest, by simp [clampTokens]⟩

/-- The first LIMIT value after clamping is the clamped first LIMIT value. -/
theorem limitOf_clampTokens : ∀ ts : List Tok,
    limitOf (clampTokens ts) = (limitOf ts).map (fun k => min k maxLimit) := by
  intro ts
  induction ts using limitOf.induct with
  | case1 k rest => simp [limitOf, clampTokens]
  | case2 a k rest h ih =>
    have e1 : clampTokens (Tok.ident a :: Tok.num k :: rest)
        = Tok.ident a :: Tok.num k :: clampTokens rest := by
      simp [clampTokens, h]
    have e2 : limitOf (Tok.ident a :: Tok.num k :: clampTokens rest)
        = limitOf (clampTokens rest) := by
      simp [limitOf, h]
    have e3 : limitOf (Tok.ident a :: Tok.num k :: rest) = limitOf rest := by
      simp [limitOf, h]
    rw [e1, e2, e3]
    simpa [limitOf, clampTokens] using ih
  | case3 head rest hexcl ih =>
    rcases head with s | k
    · rcases rest with _ | ⟨b, rest1⟩
      · simp [limitOf, clampTokens]
      · rcases b with s2 | k2
        · obtain ⟨tl, htl⟩ := clampTokens_cons (.ident s2) rest1
          have h1 : clampTokens (Tok.ident s :: Tok.ident s2 :: rest1)
              = Tok.ident s :: clampTokens (Tok.ident s2 :: rest1) := by
            simp [clampTokens]
          rw [h1, htl]
          have h2 : limitOf (Tok.ident s :: Tok.ident s2 :: tl)
              = limitOf (Tok.ident s2 :: tl) := by
            simp [limitOf]
          have h3 : limitOf (Tok.ident s :: Tok.ident s2 :: rest1)
              = limitOf (Tok.ident s2 :: rest1) := by
            simp [limitOf]
          rw [h2, ← htl, h3]
          exact ih
        · exact (hexcl s k2 rest1 rfl rfl).elim
    · have h1 : clampTokens (Tok.num k :: rest) = Tok.num k :: clampTokens rest := by
        simp [clampTokens]
      rw [h1]
      have h2 : limitOf (Tok.num k :: clampTokens rest) = limitOf (clampTokens rest) := by
        simp [limitOf]
      have h3 : limitOf (Tok.num k :: rest) = limitOf rest := by simp [limitOf]
      rw [h2, h3]
      exact ih
  | case4 => simp [limitOf, clampTokens]

/-- Appending a LIMIT clause to a statement that has none makes the
appended value the statement's first LIMIT value. -/
theorem limitOf_append_inject (n : Nat) : ∀ ts : List Tok, limitOf ts = none →
    limitOf (ts ++ [Tok.ident "LIMIT", Tok.num n]) = some n := by
  intro ts
  induction ts using limitOf.induct with
  | case1 k rest => intro h; simp [limitOf] at h
  | case2 a k rest h ih =>
    intro h0
    simp only [limitOf] at h0
    simp [h] at h0
    have := ih (by simp [limitOf]; exact h0)
    simp only [List.cons_append]
    simp [limitOf, h]
    simpa [limitOf] using this
  | case3 head rest hexcl ih =>
    intro h0
    rcases head with s | k
    · rcases rest with _ | ⟨b, rest1⟩
      · simp [limitOf]
      · rcases b with s2 | k2
        · have h3 : limitOf (Tok.ident s2 :: rest1) = none := by
            simpa [limitOf] using h0
          have := ih h3
          simp only [List.cons_append] at this ⊢
          simpa [limitOf] using this
        · exact (hexcl s k2 rest1 rfl rfl).elim
    · have h3 : limitOf rest = none := by simpa [limitOf] using h0
      have := ih h3
      simp only [List.cons_append]
      simpa [limitOf] using this
  | case4 => intro _; simp [limitOf]

/-- The rewritten (bounded) token list always carries a LIMIT at most the
configured maximum: the default is injected when LIMIT was absent, and an
existing LIMIT is clamped. -/
theorem boundedTokens_limit (ts : List Tok) :
    ∃ k, limitOf (boundedTokens ts) = some k ∧ k ≤ maxLimit ∧
      (limitOf ts = none → k = defaultLimit) ∧
      (∀ k0, limitOf ts = some k0 → k = min k0 maxLimit) := by
  cases h : limitOf ts with
  | none =>
    refine ⟨defaultLimit, ?_, by decide, fun _ => rfl, fun k0 hk => by simp [h] at hk⟩
    simp [boundedTokens, h, limitOf_append_inject defaultLimit ts h]
  | some k0 =>
    refine ⟨min k0 maxLimit, ?_, Nat.min_le_right _ _, fun hn => by simp [h] at hn,
      fun k1 hk => by simp [h] at hk; simp [hk]⟩
    simp [boundedTokens, h, limitOf_clampTokens]

/-- A matched result can only arise from an intent in the list whose
keywords are satisfied and whose parameter extraction succeeded with
exactly the returned parameters. -/
theorem matchFirst_matched_sound :
    ∀ (il : List Intent) (anchor : Date) (ws : List Tok) (nm : String) (ps : Params),
      matchFirst il anchor ws = .matched nm ps →
      ∃ i ∈ il, i.name = nm ∧ i.keywordsOk ws = true ∧ i.extract anchor ws = some ps := by
  intro il
  induction il with
  | nil => intro anchor ws nm ps h; simp [matchFirst] at h
  | cons i rest ih =>
    intro anchor ws nm ps h
    by_cases hk : i.keywordsOk ws
    · cases hx : i.extract anchor ws with
      | none => simp [matchFirst, hk, hx] at h
      | some ps0 =>
        simp [matchFirst, hk, hx] at h
        exact ⟨i, List.mem_cons_self i rest, h.1, hk, by rw [hx, h.2]⟩
    · simp only [matchFirst, if_neg hk] at h
      obtain ⟨j, hj, hrest⟩ := ih anchor ws nm ps h
      exact ⟨j, List.mem_cons_of_mem i hj, hrest⟩

/-- When the first keyword-satisfied intent fails parameter extraction, the
matcher stops with a no-match scoped to that intent (it does not fall
through to later intents). -/
theorem matchFirst_noMatch_of_extract_none :
    ∀ (il : List Intent) (anchor : Date) (ws : List Tok) (i : Intent),
      firstKw il ws = some i → i.extract anchor ws = none →
      matchFirst il anchor ws =
        .noMatch ("missing required parameter for " ++ i.name) i.suggestion := by
  intro il
  induction il with
  | nil => intro anchor ws i h; simp [firstKw] at h
  | cons j rest ih =>
    intro anchor ws i h hx
    by_cases hk : j.keywordsOk ws
    · simp only [firstKw, if_pos hk, Option.some.injEq] at h
      subst h
      simp [matchFirst, hk, hx]
    · simp only [firstKw, if_neg hk] at h
      simp only [matchFirst, if_neg hk]
      exact ih anchor ws i h hx

/-- Claim C1: for every candidate SQL string (template path or LLM path
alike), the overall validity computed by validate equals the conjunction
of checks 1-4 (statement shape, statement count, table whitelist, column
whitelist); a check appended after validation (such as the execution-time
timeout check 6) does not change it; and whenever overall validity is
false, the SQL is never passed to the execution engine. -/
theorem overall_validity_conjunction_and_gate (sql : String) :
    (overallValid (validate sql) =
      (checkStatementShape (toks sql) && checkStatementCount sql &&
        checkTableWhitelist (toks sql) && checkColumnWhitelist (toks sql)))
    ∧ (∀ c : CheckResult,
        overallValid ⟨(validate sql).checks ++ [c], (validate sql).rewritten⟩ =
          overallValid (validate sql))
    ∧ (overallValid (validate sql) = false →
        ∀ exec : String → ExecOutcome, guardedExec exec sql = none) := by
  refine ⟨?_, fun c => rfl, fun h exec => ?_⟩
  · simp [validate, overallValid, Bool.and_assoc]
  · simp [guardedExec, h]

/-- Witness for claim C1: a concrete overall-invalid statement is not
handed to the execution engine. -/
theorem overall_validity_conjunction_and_gate_witness :
    guardedExec (fun _ => ExecOutcome.success []) "DROP TABLE Customer" = none :=
  (overall_validity_conjunction_and_gate "DROP TABLE Customer").2.2 (by decide) _

/-- Claim C2: every SQL string that contains DROP, DELETE, UPDATE, or
INSERT as a token, or a stacked top-level statement separator outside
string/comment literals, is overall-invalid under validate, regardless of
whether it came from a template or from the LLM. -/
theorem denied_keyword_or_stacked_invalid (sql : String)
    (h : Tok.ident "DROP" ∈ toks sql ∨ Tok.ident "DELETE" ∈ toks sql ∨
      Tok.ident "UPDATE" ∈ toks sql ∨ Tok.ident "INSERT" ∈ toks sql ∨
      hasStacked (stripLiterals sql.toList .plain) = true) :
    overallValid (validate sql) = false := by
  rcases h with h | h | h | h | h
  case _ | _ | _ | _ =>
    have hs : checkStatementShape (toks sql) = false :=
      shape_false_of_denied (toks sql) _ h (by decide)
    simp [validate, overallValid, hs]
  · have h2 : hasStacked (stripLiterals sql.data .plain) = true := h
    have hc : checkStatementCount sql = false := by simp [checkStatementCount, h2]
    simp [validate, overallValid, hc]

/-- Witness for claim C2: a concrete stacked injection attempt is rejected. -/
theorem denied_keyword_or_stacked_invalid_witness :
    overallValid (validate "SELECT name FROM Customer; DROP TABLE Customer") = false :=
  denied_keyword_or_stacked_invalid _ (Or.inl (by decide))

/-- Claim C3: the matcher never returns a match for an intent whose
required parameters were not all extracted; when the first intent in
priority order whose required keywords are present fails extraction, the
result is a no-match scoped to that intent with its refinement
suggestion, never a default-parameter match and never a silent
fall-through; concretely, revenue alone yields no-match while revenue
last 30 days yields a match. -/
theorem keyword_present_param_missing_no_match :
    (∀ (anchor : Date) (text : String) (nm : String) (ps : Params),
        matchIntent anchor text = .matched nm ps →
        ∃ i ∈ intents, i.name = nm ∧ i.keywordsOk (toks text) = true ∧
          i.extract anchor (toks text) = some ps)
    ∧ (∀ (anchor : Date) (text : String) (i : Intent),
        firstKw intents (toks text) = some i →
        i.extract anchor (toks text) = none →
        matchIntent anchor text =
          .noMatch ("missing required parameter for " ++ i.name) i.suggestion)
    ∧ (∀ anchor : Date, matchIntent anchor "revenue" =
        .noMatch "missing required parameter for revenue_by_period"
          revenueIntent.suggestion)
    ∧ (matchIntent ⟨2024, 11, 30⟩ "revenue last 30 days" =
        .matched "revenue_by_period" (.revenue ⟨⟨2024, 11, 1⟩, ⟨2024, 11, 30⟩⟩)) := by
  refine ⟨fun a t => matchFirst_matched_sound intents a (toks t),
    fun a t => matchFirst_noMatch_of_extract_none intents a (toks t),
    fun a => rfl, by decide⟩

/-- Witness for claim C3: orders without a customer id resolves to the
orders intent by keywords and yields its scoped no-match. -/
theorem keyword_present_param_missing_no_match_witness :
    matchIntent ⟨2024, 11, 30⟩ "orders" =
      .noMatch ("missing required parameter for " ++ ordersIntent.name)
        ordersIntent.suggestion :=
  keyword_present_param_missing_no_match.2.1 ⟨2024, 11, 30⟩ "orders" ordersIntent rfl rfl

/-- Claim C4: every single SELECT statement passing the shape, count, table
and column checks is overall-valid, and the rewritten SQL always carries
a LIMIT at most the configured maximum: a missing LIMIT is injected at
the configured default and an oversized LIMIT is clamped, not rejected. -/
theorem whitelisted_select_valid_with_bounded_limit (sql : String)
    (h1 : checkStatementShape (toks sql) = true)
    (h2 : checkStatementCount sql = true)
    (h3 : checkTableWhitelist (toks sql) = true)
    (h4 : checkColumnWhitelist (toks sql) = true) :
    overallValid (validate sql) = true ∧
      ∃ k, limitOf (validate sql).rewritten = some k ∧ k ≤ maxLimit ∧
        (limitOf (toks sql) = none → k = defaultLimit) ∧
        (∀ k0, limitOf (toks sql) = some k0 → k = min k0 maxLimit) := by
  constructor
  · simp [validate, overallValid, h1, h2, h3, h4]
  · simpa [validate] using boundedTokens_limit (toks sql)

/-- Witness for claim C4: a concrete whitelisted SELECT with no LIMIT is
overall-valid and gets the default LIMIT injected. -/
theorem whitelisted_select_valid_with_bounded_limit_witness :
    overallValid (validate "SELECT order_date FROM Inventory") = true ∧
      ∃ k, limitOf (validate "SELECT order_date FROM Inventory").rewritten = some k ∧
        k ≤ maxLimit ∧
        (limitOf (toks "SELECT order_date FROM Inventory") = none → k = defaultLimit) ∧
        (∀ k0, limitOf (toks "SELECT order_date FROM Inventory") = some k0 →
          k = min k0 maxLimit) :=
  whitelisted_select_valid_with_bounded_limit "SELECT order_date FROM Inventory"
    (by decide) (by decide) (by decide) (by decide)

/-- Claim C5: relative date-range phrases resolve against the supplied
anchor date, which the pipeline takes from the maximum order date of the
loaded dataset (the model consults no clock); in particular, revenue last
30 days against a dataset whose maximum order date is 2024-11-30 resolves
to the range from 2024-11-01 to 2024-11-30, and Q3 2024 and August 2024
resolve to their calendar ranges. -/
theorem date_grounding_anchored_to_dataset_max :
    (∀ (n : Nat) (anchor : Date), (resolvePeriod (.lastDays n) anchor).last = anchor)
    ∧ (∀ anchor : Date, (resolvePeriod .thisMonth anchor).last = anchor)
    ∧ datasetAnchor [⟨2024, 10, 1⟩, ⟨2024, 11, 30⟩, ⟨2024, 11, 5⟩] = ⟨2024, 11, 30⟩
    ∧ matchIntent (datasetAnchor [⟨2024, 10, 1⟩, ⟨2024, 11, 30⟩, ⟨2024, 11, 5⟩])
        "revenue last 30 days" =
        .matched "revenue_by_period" (.revenue ⟨⟨2024, 11, 1⟩, ⟨2024, 11, 30⟩⟩)
    ∧ resolvePeriod (.quarter 3 2024) ⟨2024, 11, 30⟩ = ⟨⟨2024, 7, 1⟩, ⟨2024, 9, 30⟩⟩
    ∧ resolvePeriod (.monthOf 8 2024) ⟨2024, 11, 30⟩ = ⟨⟨2024, 8, 1⟩, ⟨2024, 8, 31⟩⟩ :=
  ⟨fun _ _ => rfl, fun _ => rfl, by decide, by decide, by decide, by decide⟩

/-- Claim C6: a successful execution returning zero rows assembles a
distinct empty-result bundle: no-matching-rows error messaging with a
suggestion, zero rows scanned, no fabricated answer text, a failed
non-empty-result validation, and the frontend banner condition fires. -/
theorem zero_rows_distinct_empty_result (sql : String) (r : ValidationReport) :
    (assemble sql r (.success [])).error = some "No matching rows found." ∧
    (assemble sql r (.success [])).suggestion.isSome = true ∧
    (assemble sql r (.success [])).rows_scanned = 0 ∧
    (assemble sql r (.success [])).answer_text = none ∧
    (⟨"non_empty_result", false⟩ : CheckResult) ∈ (assemble sql r (.success [])).validations ∧
    answerCardBannerShown (assemble sql r (.success [])) = true := by
  refine ⟨rfl, rfl, rfl, rfl, ?_, ?_⟩
  · simp [assemble]
  · simp [answerCardBannerShown, assemble]

/-- Claim C7: Classic-mode answerQuestion is deterministic: with identical
input text, identical dataset, and an unchanged execution engine, the
resulting bundles have identical sql and answer text, and the LLM client
plays no role at all in Classic mode. -/
theorem classic_mode_deterministic (llm llm2 : String → Option String)
    (exec : String → ExecOutcome) (orderDates : List Date) (text : String) :
    (answerQuestion .classic llm exec orderDates text).sql =
      (answerQuestion .classic llm2 exec orderDates text).sql ∧
    (answerQuestion .classic llm exec orderDates text).answer_text =
      (answerQuestion .classic llm2 exec orderDates text).answer_text :=
  ⟨rfl, rfl⟩

/-- Claim C8: rendering the orders template with customer id 1001 and
parsing the numeric literal back out reproduces exactly 1001, and the
rendered SQL is exactly the template text with the literal bound (no
extra clauses injected). -/
theorem template_parameter_round_trip :
    extractCid (renderPlan (.ordersFor 1001)) = some 1001 ∧
    renderPlan (.ordersFor 1001) =
      "SELECT I.IID, I.order_date, I.order_total FROM Inventory I WHERE I.CID = 1001 ORDER BY I.order_date DESC LIMIT 100" :=
  ⟨by decide, by decide⟩

/-- Claim C9: the frontend getQueryMode returns ai exactly when the stored
preference is the string ai, and classic for any other value, a missing
value, or a storage error; a callChat request without an explicit mode
therefore carries the stored mode, defaulting to classic. -/
theorem query_mode_defaults_to_classic :
    (∀ r : StorageRead, getQueryMode r = .ai ↔ r = .ok (some "ai"))
    ∧ (∀ (m : String) (r : StorageRead),
        (chatRequestBody m none r).query_mode = getQueryMode r)
    ∧ (∀ (m : String) (r : StorageRead) (q : QueryMode),
        (chatRequestBody m (some q) r).query_mode = q) := by
  refine ⟨fun r => ?_, fun m r => rfl, fun m r q => rfl⟩
  cases r with
  | err => simp [getQueryMode]
  | ok o =>
    cases o with
    | none => simp [getQueryMode]
    | some s =>
      by_cases hs : s = "ai"
      · subst hs; simp [getQueryMode]
      · simp [getQueryMode, hs]

/-- Claim C10: the evidence section renders at most the first three sample
rows: the shown list has length at most three and is an initial segment
of the rows the backend returned, however many there were. -/
theorem evidence_sample_rows_at_most_three :
    (∀ rows : List Row, (shownSampleRows (some rows)).length ≤ 3 ∧
      shownSampleRows (some rows) ++ rows.drop 3 = rows)
    ∧ shownSampleRows none = [] := by
  refine ⟨fun rows => ⟨?_, ?_⟩, rfl⟩
  · simp only [shownSampleRows]
    split
    · simp [List.length_take]
    · simp
  · simp only [shownSampleRows]
    split
    · exact List.take_append_drop 3 rows
    · simp_all [List.length_eq_zero]
